import Mathlib

/-!
Shallow embedding of the casa smart-switch application: the device
inventory records of `wemo/models.py`, the SOAP control client, the
discovery reconciliation of `wemo/management/commands/discover_wemo.py`
and `wemo/views.py`, and the away-mode scheduler of
`wemo/management/commands/run_away_mode.py`, together with theorems
checking the specification's claims against these definitions.
-/

namespace Casa

/-- Python truthiness of an optional string attribute, as used by the
source's `if udn:`-style guards: `None` and the empty string are falsy,
every other string is truthy. -/
def truthy : Option String → Bool
  | none => false
  | some s => s ≠ ""

/-! ## Control client (`wemo/models.py`, `WemoSwitch` SOAP methods) -/

/-- Outcome of one SOAP exchange as seen by the parsing layer of
`WemoSwitch.get_state` / `get_firmware_version`.  `transportFail` stands
for a `requests` exception raised by `_soap_request` (timeout, refused
connection, or a non-2xx status via `raise_for_status`); `malformed`
stands for a response body on which `ET.fromstring` raises `ParseError`;
`parsed field` is a well-formed body whose single extracted leaf element
(`BinaryState` resp. `FirmwareVersion`) has text `field`, with `none`
when `root.find` locates no such element. -/
inductive SoapResult where
  | transportFail : SoapResult
  | malformed : SoapResult
  | parsed : Option String → SoapResult
deriving DecidableEq, Repr

/-- Errors a control-client operation can raise: `connectivity` models the
`requests` exception classes re-raised by the first `except` clause of
`get_state`; `parseError` models `xml.etree`'s `ParseError` re-raised by
the second; `valueError` models `int()` raising on non-numeric text. -/
inductive WemoError where
  | connectivity : WemoError
  | parseError : WemoError
  | valueError : WemoError
deriving DecidableEq, Repr

/-- Model of Python's `int(s)` on a string: optional surrounding
whitespace, an optional sign, then one or more decimal digits; `none`
models the `ValueError` raise.  (Digit-group underscores accepted by
Python 3 are not modelled; device responses carry plain numerals.) -/
def digitsToNat (l : List Char) : Option Nat :=
  if l.isEmpty then none
  else l.foldl (fun acc c =>
    match acc with
    | none => none
    | some a => if c.isDigit then some (10 * a + (c.toNat - 48)) else none) (some 0)

/-- Whitespace stripping on both ends, the `str.strip()` part of `int()`'s
argument handling. -/
def pyStrip (l : List Char) : List Char :=
  ((l.dropWhile Char.isWhitespace).reverse.dropWhile Char.isWhitespace).reverse

/-- Model of Python's `int(s)`; see `digitsToNat` for the digit part. -/
def pyInt (s : String) : Option Int :=
  match pyStrip s.toList with
  | '-' :: rest => (digitsToNat rest).map (fun a => -(a : Int))
  | '+' :: rest => (digitsToNat rest).map (fun a => (a : Int))
  | cs => (digitsToNat cs).map (fun a => (a : Int))

/-- Embeds `WemoSwitch.get_state`: a transport failure re-raises the
`requests` exception; an unparseable body re-raises `ParseError`; a parsed
body yields `int(state.text)` when the `BinaryState` element is present
(with `int()`'s own `ValueError` re-raised), and `None` when it is
absent. -/
def get_state (resp : SoapResult) : Except WemoError (Option Int) :=
  match resp with
  | .transportFail => .error .connectivity
  | .malformed => .error .parseError
  | .parsed none => .ok none
  | .parsed (some txt) =>
    match pyInt txt with
    | some n => .ok (some n)
    | none => .error .valueError

/-- Embeds `WemoSwitch.get_firmware_version`: no `try` block, so a
transport failure or `ParseError` propagates; a parsed body yields the
`FirmwareVersion` element's text, or `None` when the element is absent. -/
def get_firmware_version (resp : SoapResult) : Except WemoError (Option String) :=
  match resp with
  | .transportFail => .error .connectivity
  | .malformed => .error .parseError
  | .parsed v => .ok v

/-! ## Inventory records (`wemo/models.py`, `WemoSwitch` fields and `save`) -/

/-- One persisted `WemoSwitch` row.  Fields mirror `wemo/models.py`;
values are `Option`s because these columns are nullable (or blank) and
the Python code freely assigns `None` to the in-memory attributes.  `pk`
stands for the Django-assigned primary key, `none` on a not-yet-saved
instance.  The bookkeeping timestamps `date_added` and `last_seen` play
no part in any embedded code path and are left out. -/
structure WemoSwitch where
  pk : Option Nat
  name : Option String
  hostname : Option String
  ip_address : Option String
  port : Option Int
  model : Option String
  model_name : Option String
  serial_number : Option String
  udn : Option String
  mac_address : Option String
  manufacturer : Option String
  firmware_version : Option String
  disabled : Bool
deriving DecidableEq, Repr

/-- The persisted inventory, ordered by the model's default ordering (the
order `filter(...).first()` scans). -/
abbrev Store := List WemoSwitch

/-- Embeds `WemoSwitch.save` acting on an explicit store: the override in
`wemo/models.py` raises `ValueError("Either UDN or Serial Number must be
provided")` when both identifiers are falsy — before any write, so an
erroring save leaves the store unchanged — and otherwise performs the
normal Django write: update the row with the instance's primary key when
it exists, insert a new row otherwise. -/
def WemoSwitch.save (db : Store) (sw : WemoSwitch) : Except String Store :=
  if !truthy sw.udn && !truthy sw.serial_number then
    .error "Either UDN or Serial Number must be provided"
  else if sw.pk.isSome && db.any (fun r => r.pk == sw.pk) then
    .ok (db.map (fun r => if r.pk == sw.pk then sw else r))
  else
    .ok (db ++ [sw])

/-- A record carrying at least one usable identifier, the Device Record
invariant of spec §3. -/
def hasIdentifier (sw : WemoSwitch) : Prop :=
  truthy sw.udn = true ∨ truthy sw.serial_number = true

instance (sw : WemoSwitch) : Decidable (hasIdentifier sw) := by
  unfold hasIdentifier; infer_instance

/-! ## Discovery reconciliation (`discover_wemo.py` and `wemo/views.py`) -/

/-- A discovered pywemo device descriptor.  Spec §9 asks for discovered
devices as an explicit record with optional fields; `none` models an
absent attribute (so `getattr(device, f, None)` yields `None`).
`serial_number` holds the result of the
`get_attr_any(device, 'serial_number', 'serial')` probe, and `model` the
value of the `model` attribute when the device object has one (with
`model_name` the fallback probed next by `get_attr_any`). -/
structure Descriptor where
  name : Option String
  host : Option String
  port : Option Int
  udn : Option String
  serial_number : Option String
  mac : Option String
  model : Option String
  model_name : Option String
  manufacturer : Option String
  firmware_version : Option String
deriving DecidableEq, Repr

/-- The `match_type` values returned by `Command.device_exists`,
corresponding to the strings 'UDN', 'Serial Number', 'MAC Address' and
'IP + Name'. -/
inductive MatchType where
  | byUdn : MatchType
  | bySerial : MatchType
  | byMac : MatchType
  | byIpName : MatchType
deriving DecidableEq, Repr

/-- Embeds `Command.device_exists` of `discover_wemo.py`: a fall-through
cascade of identifier probes, each consulting the store only when the
descriptor's identifier is truthy and returning on the first store row it
matches; `none` plays the source's `(False, None, None)` result. -/
def device_exists (db : Store) (d : Descriptor) : Option (MatchType × WemoSwitch) :=
  match (if truthy d.udn then db.find? (fun sw => sw.udn == d.udn) else none) with
  | some sw => some (.byUdn, sw)
  | none =>
  match (if truthy d.serial_number then
      db.find? (fun sw => sw.serial_number == d.serial_number) else none) with
  | some sw => some (.bySerial, sw)
  | none =>
  match (if truthy d.mac then db.find? (fun sw => sw.mac_address == d.mac) else none) with
  | some sw => some (.byMac, sw)
  | none =>
  match (if truthy d.host && truthy d.name then
      db.find? (fun sw => sw.ip_address == d.host && sw.name == d.name) else none) with
  | some sw => some (.byIpName, sw)
  | none => none

/-- Tags for the change strings `update_existing_device` appends, in the
source's evaluation order. -/
inductive FieldTag where
  | ip : FieldTag
  | port : FieldTag
  | hostname : FieldTag
  | mac : FieldTag
  | firmware : FieldTag
  | nameTag : FieldTag
deriving DecidableEq, Repr

/-- Reverse-DNS result for the discovered host, the
`safe_gethost(host) if host else None` expression; `lookup` models
`socket.gethostbyaddr` with `none` for a failed lookup. -/
def hostnameFor (d : Descriptor) (lookup : String → Option String) : Option String :=
  match d.host with
  | some h => if h ≠ "" then lookup h else none
  | none => none

/-! The update of `Command.update_existing_device` is embedded as six
per-field steps applied in the source's order; each step carries the
record mutated so far and the accumulated change list. -/

/-- Source step `if existing_switch.ip_address != host`: assigned on any
difference, with no truthiness guard. -/
def upd_ip (d : Descriptor) (p : WemoSwitch × List FieldTag) :
    WemoSwitch × List FieldTag :=
  if p.1.ip_address ≠ d.host then ({ p.1 with ip_address := d.host }, p.2 ++ [FieldTag.ip])
  else p

/-- Source step `if existing_switch.port != port`: assigned on any
difference, with no truthiness guard. -/
def upd_port (d : Descriptor) (p : WemoSwitch × List FieldTag) :
    WemoSwitch × List FieldTag :=
  if p.1.port ≠ d.port then ({ p.1 with port := d.port }, p.2 ++ [FieldTag.port])
  else p

/-- Source step `if existing_switch.hostname != hostname`: assigned on any
difference against the freshly recomputed reverse-DNS value. -/
def upd_hostname (hostname : Option String) (p : WemoSwitch × List FieldTag) :
    WemoSwitch × List FieldTag :=
  if p.1.hostname ≠ hostname then
    ({ p.1 with hostname := hostname }, p.2 ++ [FieldTag.hostname])
  else p

/-- Source step `if mac and existing_switch.mac_address != mac`: guarded
by truthiness of the discovered value. -/
def upd_mac (d : Descriptor) (p : WemoSwitch × List FieldTag) :
    WemoSwitch × List FieldTag :=
  if truthy d.mac = true ∧ p.1.mac_address ≠ d.mac then
    ({ p.1 with mac_address := d.mac }, p.2 ++ [FieldTag.mac])
  else p

/-- Source step `if firmware and existing_switch.firmware_version !=
firmware`: guarded by truthiness of the discovered value. -/
def upd_firmware (d : Descriptor) (p : WemoSwitch × List FieldTag) :
    WemoSwitch × List FieldTag :=
  if truthy d.firmware_version = true ∧ p.1.firmware_version ≠ d.firmware_version then
    ({ p.1 with firmware_version := d.firmware_version }, p.2 ++ [FieldTag.firmware])
  else p

/-- Source step `if name and existing_switch.name != name`: guarded by
truthiness of the discovered value. -/
def upd_name (d : Descriptor) (p : WemoSwitch × List FieldTag) :
    WemoSwitch × List FieldTag :=
  if truthy d.name = true ∧ p.1.name ≠ d.name then
    ({ p.1 with name := d.name }, p.2 ++ [FieldTag.nameTag])
  else p

/-- Embeds `Command.update_existing_device` of `discover_wemo.py`: the six
field comparisons in source order — `ip_address`, `port` and `hostname`
are assigned whenever the discovered value differs (even when it is
absent), while `mac_address`, `firmware_version` and `name` are guarded
by truthiness of the discovered value.  Returns the record after the
in-memory assignments together with the change list; the source saves the
record and returns the changes iff that list is nonempty. -/
def update_existing_device (ex : WemoSwitch) (d : Descriptor)
    (lookup : String → Option String) : WemoSwitch × List FieldTag :=
  upd_name d (upd_firmware d (upd_mac d
    (upd_hostname (hostnameFor d lookup) (upd_port d (upd_ip d (ex, []))))))

/-- Embeds `Command.create_wemo_switch` of `discover_wemo.py`: skipped
(reported, `return None`) when host or name is falsy; otherwise an
unsaved `WemoSwitch` instance built from the descriptor's fields. -/
def create_wemo_switch (d : Descriptor) (lookup : String → Option String) :
    Option WemoSwitch :=
  if !truthy d.host || !truthy d.name then none
  else some {
    pk := none
    name := d.name
    hostname := match d.host with | some h => lookup h | none => none
    ip_address := d.host
    port := d.port
    model := d.model <|> d.model_name
    model_name := d.model_name
    serial_number := d.serial_number
    udn := d.udn
    mac_address := d.mac
    manufacturer := d.manufacturer
    firmware_version := d.firmware_version
    disabled := false }

/-- Running state of `Command.handle`'s per-device loop in
`discover_wemo.py`: the store after in-loop updates, the `new_devices`
list, and the first uncaught exception (which in the source aborts the
run at the point it is raised; later devices are then not processed). -/
structure DiscState where
  db : Store
  newDevs : List WemoSwitch
  err : Option String
deriving DecidableEq, Repr

/-- One iteration of `Command.handle`'s device loop: match against the
store; on a match apply `update_existing_device` (whose save, when the
change list is nonempty, goes through the `WemoSwitch.save` override); on
no match, `create_wemo_switch` either queues the new instance or skips
the descriptor. -/
def discoverStep (lookup : String → Option String) (st : DiscState) (d : Descriptor) :
    DiscState :=
  if st.err.isSome then st
  else
    match device_exists st.db d with
    | some (_, sw) =>
      let (sw2, changes) := update_existing_device sw d lookup
      if changes.isEmpty then st
      else
        match WemoSwitch.save st.db sw2 with
        | .ok db2 => { st with db := db2 }
        | .error e => { st with err := some e }
    | none =>
      match create_wemo_switch d lookup with
      | some sw => { st with newDevs := st.newDevs ++ [sw] }
      | none => st

/-- The `transaction.atomic()` block of `Command.handle`: save the queued
new devices in order; the first erroring save aborts and rolls the whole
block back. -/
def saveAll (db : Store) : List WemoSwitch → Except String Store
  | [] => .ok db
  | sw :: rest =>
    match WemoSwitch.save db sw with
    | .ok db2 => saveAll db2 rest
    | .error e => .error e

/-- Embeds `Command.handle` of `discover_wemo.py` given the discovered
descriptors: run the classification loop, then (unless dry-run) save the
queued new devices inside one transaction.  Returns the resulting store
and the error of the aborted run, if any: on a save failure the source
raises `CommandError('Failed to save devices: ...')` and the atomic block
rolls back, so the store keeps only the in-loop updates. -/
def discover_handle (db : Store) (devices : List Descriptor)
    (lookup : String → Option String) (dry_run : Bool) : Store × Option String :=
  let st := devices.foldl (discoverStep lookup) ⟨db, [], none⟩
  match st.err with
  | some e => (st.db, some e)
  | none =>
    if dry_run then (st.db, none)
    else
      match saveAll st.db st.newDevs with
      | .ok db2 => (db2, none)
      | .error e => (st.db, some ("Failed to save devices: " ++ e))

/-- Outcome of `device_exists_and_update` in `wemo/views.py`:
`('updated', name, changes)`, `('unchanged', name, [])`, or
`(None, None, [])` for a new device; `failed` models the save raising
(propagated to the view's outer handler). -/
inductive ViewOutcome where
  | updated : Store → Option String → List FieldTag → ViewOutcome
  | unchanged : Option String → ViewOutcome
  | isNew : ViewOutcome
  | failed : String → ViewOutcome
deriving DecidableEq, Repr

/-- Embeds `device_exists_and_update` of `wemo/views.py`.  Unlike the
management command's `device_exists`, the identifier probes form an
`if/elif` chain: the branch is chosen by the first truthy identifier on
the descriptor, and a miss in that branch falls directly through to "new"
rather than trying the next identifier.  The update part applies only
`ip_address`, `port`, `hostname` and `mac_address` (no firmware or name),
with the same guard shapes as the management command. -/
def device_exists_and_update (db : Store) (d : Descriptor)
    (lookup : String → Option String) : ViewOutcome :=
  let existing : Option WemoSwitch :=
    if truthy d.udn then db.find? (fun sw => sw.udn == d.udn)
    else if truthy d.serial_number then
      db.find? (fun sw => sw.serial_number == d.serial_number)
    else if truthy d.mac then db.find? (fun sw => sw.mac_address == d.mac)
    else if truthy d.host && truthy d.name then
      db.find? (fun sw => sw.ip_address == d.host && sw.name == d.name)
    else none
  match existing with
  | none => .isNew
  | some ex =>
    let hostname := hostnameFor d lookup
    let s1 := if ex.ip_address ≠ d.host then { ex with ip_address := d.host } else ex
    let c1 := if ex.ip_address ≠ d.host then [FieldTag.ip] else ([] : List FieldTag)
    let s2 := if s1.port ≠ d.port then { s1 with port := d.port } else s1
    let c2 := if s1.port ≠ d.port then c1 ++ [FieldTag.port] else c1
    let s3 := if s2.hostname ≠ hostname then { s2 with hostname := hostname } else s2
    let c3 := if s2.hostname ≠ hostname then c2 ++ [FieldTag.hostname] else c2
    let s4 :=
      if truthy d.mac = true ∧ s3.mac_address ≠ d.mac then { s3 with mac_address := d.mac }
      else s3
    let c4 :=
      if truthy d.mac = true ∧ s3.mac_address ≠ d.mac then c3 ++ [FieldTag.mac] else c3
    if c4.isEmpty then .unchanged ex.name
    else
      match WemoSwitch.save db s4 with
      | .ok db2 => .updated db2 s4.name c4
      | .error e => .failed e

/-! ## Away-mode scheduler (`wemo/management/commands/run_away_mode.py`) -/

/-- Modelled from the spec: the `AwayModeSettings` model class itself is
not among the provided sources — only its uses in `run_away_mode.py` and
`admin.py` are — so its fields follow spec §3 "Automation Settings" and
the attribute accesses in `Command.handle`.  Dates are integer day
numbers; the idempotence markers are `none` until the corresponding
action first fires. -/
structure AwayModeSettings where
  enabled : Bool
  sunset_window_minutes : Int
  off_time_hour : Nat
  off_time_minute : Nat
  off_window_minutes : Int
  last_sunset_on : Option Int
  last_night_off : Option Int
deriving DecidableEq, Repr

/-- The two device control actions the scheduler fans out. -/
inductive SwitchAction where
  | turnOn : SwitchAction
  | turnOff : SwitchAction
deriving DecidableEq, Repr

/-- One attempted control call during a scheduler fan-out: the action,
the targeted switch, and whether the SOAP call succeeded — `false` models
`switch.turn_on()` / `turn_off()` raising, the exception being caught and
logged inside the loop body. -/
structure DeviceCall where
  action : SwitchAction
  target : WemoSwitch
  ok : Bool
deriving DecidableEq, Repr

/-- Embeds `Command.turn_on_all_switches`: iterate over the
`disabled=False` switches in store order, attempting `turn_on()` on each
inside a `try/except`, so every enabled switch is contacted whatever the
outcomes of the calls before it.  `reach` tells which switches answer. -/
def turn_on_all_switches (switches : Store) (reach : WemoSwitch → Bool) :
    List DeviceCall :=
  (switches.filter (fun sw => !sw.disabled)).map (fun sw => ⟨.turnOn, sw, reach sw⟩)

/-- Embeds `Command.turn_off_all_switches`, the `turn_off()` mirror of
`turn_on_all_switches`. -/
def turn_off_all_switches (switches : Store) (reach : WemoSwitch → Bool) :
    List DeviceCall :=
  (switches.filter (fun sw => !sw.disabled)).map (fun sw => ⟨.turnOff, sw, reach sw⟩)

/-- Start of the sunset-on window,
`sunset_time - timedelta(minutes=settings.sunset_window_minutes)`, in
seconds. -/
def sunset_window_start (s : AwayModeSettings) (sunset_time : ℚ) : ℚ :=
  sunset_time - 60 * (s.sunset_window_minutes : ℚ)

/-- End of the sunset-on window,
`sunset_time + timedelta(minutes=settings.sunset_window_minutes)`, in
seconds. -/
def sunset_window_end (s : AwayModeSettings) (sunset_time : ℚ) : ℚ :=
  sunset_time + 60 * (s.sunset_window_minutes : ℚ)

/-- Result of one `check_sunset_on` / `check_night_off` call: the device
calls issued (empty when the decision does not fire) and the settings
object afterwards. -/
structure CheckResult where
  calls : List DeviceCall
  settings : AwayModeSettings
deriving DecidableEq, Repr

/-- Embeds `Command.check_sunset_on`.  Timestamps are seconds in the
fixed Eastern zone, as rationals standing for the exact values of
`total_seconds()` arithmetic; `today` is `now.date()`; `rand` is this
call's `random.random()` draw, a value in `[0, 1)`.  Inside the window
the action fires when `rand < probability` or more than 80% of the window
has elapsed; before the window, after the window (the missed-window
branch), on a losing draw, or under `--dry-run`, nothing is called and
the settings are untouched. -/
def check_sunset_on (s : AwayModeSettings) (sunset_time now : ℚ) (today : Int)
    (rand : ℚ) (switches : Store) (reach : WemoSwitch → Bool) (dry_run : Bool) :
    CheckResult :=
  let window_start := sunset_window_start s sunset_time
  let window_end := sunset_window_end s sunset_time
  if window_start ≤ now ∧ now ≤ window_end then
    let total_window_seconds := window_end - window_start
    let elapsed_seconds := now - window_start
    let probability := elapsed_seconds / total_window_seconds
    if rand < probability ∨ elapsed_seconds > total_window_seconds * (8 / 10) then
      if dry_run then ⟨[], s⟩
      else ⟨turn_on_all_switches switches reach, { s with last_sunset_on := some today }⟩
    else ⟨[], s⟩
  else ⟨[], s⟩

/-- Today's wall-clock lights-off target,
`datetime.combine(now.date(), time(off_time_hour, off_time_minute))`, as
seconds past `day_start`, the midnight of `today`. -/
def off_target (s : AwayModeSettings) (day_start : ℚ) : ℚ :=
  day_start + 3600 * (s.off_time_hour : ℚ) + 60 * (s.off_time_minute : ℚ)

/-- Start of the night-off window,
`off_time - timedelta(minutes=settings.off_window_minutes)`. -/
def night_window_start (s : AwayModeSettings) (day_start : ℚ) : ℚ :=
  off_target s day_start - 60 * (s.off_window_minutes : ℚ)

/-- End of the night-off window,
`off_time + timedelta(minutes=settings.off_window_minutes)`. -/
def night_window_end (s : AwayModeSettings) (day_start : ℚ) : ℚ :=
  off_target s day_start + 60 * (s.off_window_minutes : ℚ)

/-- Embeds `Command.check_night_off`: the same window, probability and
forced-floor logic as `check_sunset_on`, but the window is centred on
today's `off_time_hour:off_time_minute` wall-clock target — `day_start`
is midnight of `today` in seconds, so the target is
`day_start + 3600*hour + 60*minute` — and firing calls
`turn_off_all_switches` and sets `last_night_off`. -/
def check_night_off (s : AwayModeSettings) (now : ℚ) (today : Int) (day_start : ℚ)
    (rand : ℚ) (switches : Store) (reach : WemoSwitch → Bool) (dry_run : Bool) :
    CheckResult :=
  let window_start := night_window_start s day_start
  let window_end := night_window_end s day_start
  if window_start ≤ now ∧ now ≤ window_end then
    let total_window_seconds := window_end - window_start
    let elapsed_seconds := now - window_start
    let probability := elapsed_seconds / total_window_seconds
    if rand < probability ∨ elapsed_seconds > total_window_seconds * (8 / 10) then
      if dry_run then ⟨[], s⟩
      else ⟨turn_off_all_switches switches reach, { s with last_night_off := some today }⟩
    else ⟨[], s⟩
  else ⟨[], s⟩

/-- Result of one scheduler invocation: every device call issued, in
order, and the settings afterwards. -/
structure HandleResult where
  calls : List DeviceCall
  settings : AwayModeSettings
deriving DecidableEq, Repr

/-- Embeds `Command.handle` of `run_away_mode.py`.  `today` is `now.date()`
and `day_start` the corresponding midnight in seconds; `sunset_time` comes
from the external astral provider; `rand_on` and `rand_off` are the two
independent `random.random()` draws.  When away mode is disabled nothing
happens; otherwise the sunset-on decision runs only if `last_sunset_on`
differs from today, then the night-off decision (on the settings object
the first decision may have mutated) runs only if `last_night_off`
differs from today. -/
def run_away_mode (s : AwayModeSettings) (today : Int) (day_start sunset_time now : ℚ)
    (rand_on rand_off : ℚ) (switches : Store) (reach : WemoSwitch → Bool)
    (dry_run : Bool) : HandleResult :=
  if !s.enabled then ⟨[], s⟩
  else
    let r1 :=
      if s.last_sunset_on ≠ some today then
        check_sunset_on s sunset_time now today rand_on switches reach dry_run
      else ⟨[], s⟩
    let r2 :=
      if r1.settings.last_night_off ≠ some today then
        check_night_off r1.settings now today day_start rand_off switches reach dry_run
      else ⟨[], r1.settings⟩
    ⟨r1.calls ++ r2.calls, r2.settings⟩

/-! ## Concrete fixtures used by witnesses and counterexamples -/

/-- Reverse-DNS stub that always fails, the `safe_gethost` behaviour when
every `gethostbyaddr` call raises. -/
def lookupNone : String → Option String := fun _ => none

/-- Enabled inventory record used by the concrete scenarios. -/
def swA : WemoSwitch :=
  { pk := some 1, name := some "Porch", hostname := none,
    ip_address := some "192.168.1.10", port := some 49153, model := none,
    model_name := some "Socket", serial_number := some "SER-A",
    udn := some "uuid:Socket-1_0-A", mac_address := some "AA:AA:AA:AA:AA:01",
    manufacturer := some "Belkin", firmware_version := none, disabled := false }

/-- Second enabled record, the one left unreachable in the fan-out
scenario. -/
def swB : WemoSwitch :=
  { swA with pk := some 2, name := some "Lamp", ip_address := some "192.168.1.11", serial_number := some "SER-B", udn := some "uuid:Socket-1_0-B", mac_address := some "AA:AA:AA:AA:AA:02" }

/-- Third enabled record. -/
def swC : WemoSwitch :=
  { swA with pk := some 3, name := some "Hall", ip_address := some "192.168.1.12", serial_number := some "SER-C", udn := some "uuid:Socket-1_0-C", mac_address := some "AA:AA:AA:AA:AA:03" }

/-- The three-device store of the fan-out scenario. -/
def demoSwitches : Store := [swA, swB, swC]

/-- Reachability with the middle device offline. -/
def reachExceptB : WemoSwitch → Bool := fun sw => !(sw.pk == some 2)

/-- Baseline automation settings: enabled, a 30-minute sunset half-window,
22:30 off target with a 15-minute half-window, no action fired yet. -/
def s0 : AwayModeSettings :=
  { enabled := true, sunset_window_minutes := 30, off_time_hour := 22,
    off_time_minute := 30, off_window_minutes := 15, last_sunset_on := none,
    last_night_off := none }

/-- Settings whose sunset-on marker already equals day 0. -/
def s1c : AwayModeSettings := { s0 with last_sunset_on := some 0 }

/-- Settings whose night-off marker already equals day 0. -/
def s2c : AwayModeSettings := { s0 with last_night_off := some 0 }

/-- Descriptor whose udn equals `swA`'s while serial, MAC, IP and name all
differ. -/
def d4 : Descriptor :=
  { name := some "Other", host := some "10.0.0.77", port := some 49154,
    udn := some "uuid:Socket-1_0-A", serial_number := some "SER-X",
    mac := some "AA:AA:AA:AA:AA:99", model := none, model_name := none,
    manufacturer := none, firmware_version := none }

/-- Descriptor with a non-empty udn matching no record whose serial equals
`swA`'s. -/
def d5 : Descriptor :=
  { d4 with udn := some "uuid:miss", serial_number := some "SER-A" }

/-- Discovered descriptor carrying host and name but neither udn nor
serial. -/
def dNoIds : Descriptor :=
  { name := some "Mystery", host := some "10.0.0.5", port := some 49153,
    udn := none, serial_number := none, mac := none, model := none,
    model_name := none, manufacturer := none, firmware_version := none }

/-- Valid new-device descriptor processed after `dNoIds` in the batch. -/
def dGood : Descriptor :=
  { dNoIds with name := some "Garage", host := some "10.0.0.6", udn := some "uuid:Socket-1_0-G", serial_number := some "SER-G" }

/-- Descriptor lacking a host, which the creation path skips. -/
def dHostless : Descriptor := { dNoIds with host := none, name := some "Ghost" }

/-- Descriptor identical to `swA`'s stored network state except that its
port attribute is absent. -/
def d9 : Descriptor :=
  { name := some "Porch", host := some "192.168.1.10", port := none,
    udn := some "uuid:Socket-1_0-A", serial_number := some "SER-A",
    mac := none, model := none, model_name := none, manufacturer := none,
    firmware_version := none }

/-- Rediscovery descriptor agreeing with `swA` on every compared field
(under a failing reverse-DNS lookup, matching the stored absent
hostname). -/
def dSame : Descriptor :=
  { name := some "Porch", host := some "192.168.1.10", port := some 49153,
    udn := some "uuid:Socket-1_0-A", serial_number := some "SER-A",
    mac := none, model := none, model_name := none, manufacturer := none,
    firmware_version := none }

/-- Unsaved record with neither identifier, for the save-invariant
scenarios. -/
def swNoIds : WemoSwitch :=
  { pk := none, name := some "Mystery", hostname := none,
    ip_address := some "10.0.0.5", port := some 49153, model := none,
    model_name := none, serial_number := none, udn := none,
    mac_address := none, manufacturer := none, firmware_version := none,
    disabled := false }

/-! ## Helper lemmas about the scheduler decisions -/

/-- The calls list of `check_sunset_on` is either empty or exactly the
turn-on fan-out over the enabled switches. -/
theorem check_sunset_on_calls_cases (s : AwayModeSettings) (sunset_time now : ℚ)
    (today : Int) (rand : ℚ) (switches : Store) (reach : WemoSwitch → Bool)
    (dry_run : Bool) :
    (check_sunset_on s sunset_time now today rand switches reach dry_run).calls = [] ∨
      (check_sunset_on s sunset_time now today rand switches reach dry_run).calls
        = turn_on_all_switches switches reach := by
  simp only [check_sunset_on]
  split_ifs <;> simp

/-- Every call issued by `check_sunset_on` is a turn-on. -/
theorem check_sunset_on_actions (s : AwayModeSettings) (sunset_time now : ℚ)
    (today : Int) (rand : ℚ) (switches : Store) (reach : WemoSwitch → Bool)
    (dry_run : Bool) :
    ∀ c ∈ (check_sunset_on s sunset_time now today rand switches reach dry_run).calls,
      c.action = SwitchAction.turnOn := by
  intro c hc
  rcases check_sunset_on_calls_cases s sunset_time now today rand switches reach dry_run
    with hcase | hcase
  · rw [hcase] at hc
    exact absurd hc (List.not_mem_nil c)
  · rw [hcase] at hc
    simp only [turn_on_all_switches, List.mem_map] at hc
    obtain ⟨sw, _, rfl⟩ := hc
    rfl

/-- Lemma that `check_sunset_on` never touches the night-off marker. -/
theorem check_sunset_on_night_marker (s : AwayModeSettings) (sunset_time now : ℚ)
    (today : Int) (rand : ℚ) (switches : Store) (reach : WemoSwitch → Bool)
    (dry_run : Bool) :
    (check_sunset_on s sunset_time now today rand switches
        reach dry_run).settings.last_night_off
      = s.last_night_off := by
  simp only [check_sunset_on]
  split_ifs <;> rfl

/-- The calls list of `check_night_off` is either empty or exactly the
turn-off fan-out over the enabled switches. -/
theorem check_night_off_calls_cases (s : AwayModeSettings) (now : ℚ) (today : Int)
    (day_start : ℚ) (rand : ℚ) (switches : Store) (reach : WemoSwitch → Bool)
    (dry_run : Bool) :
    (check_night_off s now today day_start rand switches reach dry_run).calls = [] ∨
      (check_night_off s now today day_start rand switches reach dry_run).calls
        = turn_off_all_switches switches reach := by
  simp only [check_night_off]
  split_ifs <;> simp

/-- Every call issued by `check_night_off` is a turn-off. -/
theorem check_night_off_actions (s : AwayModeSettings) (now : ℚ) (today : Int)
    (day_start : ℚ) (rand : ℚ) (switches : Store) (reach : WemoSwitch → Bool)
    (dry_run : Bool) :
    ∀ c ∈ (check_night_off s now today day_start rand switches reach dry_run).calls,
      c.action = SwitchAction.turnOff := by
  intro c hc
  rcases check_night_off_calls_cases s now today day_start rand switches reach dry_run
    with hcase | hcase
  · rw [hcase] at hc
    exact absurd hc (List.not_mem_nil c)
  · rw [hcase] at hc
    simp only [turn_off_all_switches, List.mem_map] at hc
    obtain ⟨sw, _, rfl⟩ := hc
    rfl

/-- Lemma that `check_night_off` never touches the sunset-on marker. -/
theorem check_night_off_sunset_marker (s : AwayModeSettings) (now : ℚ) (today : Int)
    (day_start : ℚ) (rand : ℚ) (switches : Store) (reach : WemoSwitch → Bool)
    (dry_run : Bool) :
    (check_night_off s now today day_start rand switches
        reach dry_run).settings.last_sunset_on
      = s.last_sunset_on := by
  simp only [check_night_off]
  split_ifs <;> rfl

/-- When the sunset-on marker already carries today's date, a scheduler
invocation issues no turn-on call and leaves the marker as it is. -/
theorem run_no_turn_on_when_marked (s : AwayModeSettings) (today : Int)
    (day_start sunset_time now rand_on rand_off : ℚ) (switches : Store)
    (reach : WemoSwitch → Bool) (dry_run : Bool)
    (h : s.last_sunset_on = some today) :
    (∀ c ∈ (run_away_mode s today day_start sunset_time now rand_on rand_off
        switches reach dry_run).calls, c.action ≠ SwitchAction.turnOn) ∧
      (run_away_mode s today day_start sunset_time now rand_on rand_off
        switches reach dry_run).settings.last_sunset_on = some today := by
  by_cases hE : s.enabled = true
  · by_cases hN : s.last_night_off = some today
    · have hrun : run_away_mode s today day_start sunset_time now rand_on rand_off
          switches reach dry_run = ⟨[], s⟩ := by
        simp [run_away_mode, hE, h, hN]
      rw [hrun]
      exact ⟨fun c hc => absurd hc (List.not_mem_nil c), h⟩
    · have hrun : run_away_mode s today day_start sunset_time now rand_on rand_off
          switches reach dry_run =
            ⟨(check_night_off s now today day_start rand_off switches reach dry_run).calls,
             (check_night_off s now today day_start rand_off switches reach dry_run).settings⟩ := by
        simp [run_away_mode, hE, h, hN]
      rw [hrun]
      refine ⟨fun c hc => ?_, ?_⟩
      · rw [check_night_off_actions s now today day_start rand_off switches reach dry_run c hc]
        intro hcontra
        exact SwitchAction.noConfusion hcontra
      · rw [check_night_off_sunset_marker]
        exact h
  · have hrun : run_away_mode s today day_start sunset_time now rand_on rand_off
        switches reach dry_run = ⟨[], s⟩ := by
      simp [run_away_mode, hE]
    rw [hrun]
    exact ⟨fun c hc => absurd hc (List.not_mem_nil c), h⟩

/-- When the night-off marker already carries today's date, a scheduler
invocation issues no turn-off call and leaves the marker as it is. -/
theorem run_no_turn_off_when_marked (s : AwayModeSettings) (today : Int)
    (day_start sunset_time now rand_on rand_off : ℚ) (switches : Store)
    (reach : WemoSwitch → Bool) (dry_run : Bool)
    (h : s.last_night_off = some today) :
    (∀ c ∈ (run_away_mode s today day_start sunset_time now rand_on rand_off
        switches reach dry_run).calls, c.action ≠ SwitchAction.turnOff) ∧
      (run_away_mode s today day_start sunset_time now rand_on rand_off
        switches reach dry_run).settings.last_night_off = some today := by
  by_cases hE : s.enabled = true
  · by_cases hS : s.last_sunset_on = some today
    · have hrun : run_away_mode s today day_start sunset_time now rand_on rand_off
          switches reach dry_run = ⟨[], s⟩ := by
        simp [run_away_mode, hE, h, hS]
      rw [hrun]
      exact ⟨fun c hc => absurd hc (List.not_mem_nil c), h⟩
    · have hmark := check_sunset_on_night_marker s sunset_time now today rand_on
        switches reach dry_run
      have hrun : run_away_mode s today day_start sunset_time now rand_on rand_off
          switches reach dry_run =
            ⟨(check_sunset_on s sunset_time now today rand_on switches reach dry_run).calls,
             (check_sunset_on s sunset_time now today rand_on switches reach dry_run).settings⟩ := by
        simp [run_away_mode, hE, h, hS, hmark]
      rw [hrun]
      refine ⟨fun c hc => ?_, ?_⟩
      · rw [check_sunset_on_actions s sunset_time now today rand_on switches reach dry_run c hc]
        intro hcontra
        exact SwitchAction.noConfusion hcontra
      · rw [hmark]
        exact h
  · have hrun : run_away_mode s today day_start sunset_time now rand_on rand_off
        switches reach dry_run = ⟨[], s⟩ := by
      simp [run_away_mode, hE]
    rw [hrun]
    exact ⟨fun c hc => absurd hc (List.not_mem_nil c), h⟩

/-! ## Claim theorems: control client (C7, C8) -/

/-- C7: `get_state()` returns exactly the integer parsed from the
response's `BinaryState` field; whatever integer the element text denotes
(including values outside {0,1}, such as 8) is returned unmodified, never
coerced to 0 or 1. -/
theorem c7_get_state_passes_integer_through (s : String) (n : Int)
    (h : pyInt s = some n) :
    get_state (SoapResult.parsed (some s)) = .ok (some n) := by
  simp [get_state, h]

/-- Witness for C7 at the spec's concrete value 8: the text "8" parses to
the integer 8 and `get_state` returns it unmodified. -/
theorem c7_get_state_passes_integer_through_witness :
    pyInt "8" = some 8 ∧
      get_state (SoapResult.parsed (some "8")) = .ok (some 8) :=
  ⟨by decide, c7_get_state_passes_integer_through "8" 8 (by decide)⟩

/-- C8 counterexample: a transport-successful `get_state` response missing
the `BinaryState` element does not raise any error — the code returns
`None` (`return int(state.text) if state is not None else None`),
contradicting the claim that a missing expected field raises a protocol
error rather than silently substituting a default. -/
theorem c8_missing_field_returns_none_counterexample :
    get_state (SoapResult.parsed none) = .ok none ∧
      get_state (SoapResult.parsed none) ≠ .error .connectivity ∧
      get_state (SoapResult.parsed none) ≠ .error .parseError ∧
      get_state (SoapResult.parsed none) ≠ .error .valueError := by
  refine ⟨rfl, ?_, ?_, ?_⟩ <;> simp [get_state]

/-- C8 amended: an unparseable response raises a parse error distinct from
the connectivity error (in both `get_state` and `get_firmware_version`),
and a transport failure raises the connectivity error; but a
transport-successful response missing the expected field does not raise —
`get_state` returns `None` and `get_firmware_version` returns `None`. -/
theorem c8_error_classification_amended :
    get_state SoapResult.transportFail = .error .connectivity ∧
      get_state SoapResult.malformed = .error .parseError ∧
      WemoError.parseError ≠ WemoError.connectivity ∧
      get_state (SoapResult.parsed none) = .ok none ∧
      get_firmware_version SoapResult.transportFail = .error .connectivity ∧
      get_firmware_version SoapResult.malformed = .error .parseError ∧
      get_firmware_version (SoapResult.parsed none) = .ok none := by
  refine ⟨rfl, rfl, ?_, rfl, rfl, rfl, rfl⟩
  decide

/-! ## Claim theorems: identity reconciliation (C4, C5) -/

/-- C4: whenever the descriptor's udn is non-empty and equals the udn of
some stored record, `device_exists` classifies the descriptor as matched
by UDN — returning a stored record with that udn — with no condition on
the descriptor's serial number, MAC address or IP address, which may all
differ from the matched record's values. -/
theorem c4_udn_match_wins (db : Store) (d : Descriptor)
    (h1 : truthy d.udn = true) (h2 : ∃ sw ∈ db, sw.udn = d.udn) :
    ∃ sw, device_exists db d = some (MatchType.byUdn, sw) ∧ sw ∈ db ∧
      sw.udn = d.udn := by
  have hsome : (db.find? (fun sw => sw.udn == d.udn)).isSome := by
    rw [List.find?_isSome]
    obtain ⟨sw, hmem, hu⟩ := h2
    exact ⟨sw, hmem, by simp [hu]⟩
  obtain ⟨sw, hfind⟩ := Option.isSome_iff_exists.1 hsome
  have hp := List.find?_some hfind
  refine ⟨sw, ?_, List.mem_of_find?_eq_some hfind, by simpa using hp⟩
  simp [device_exists, h1, hfind]

/-- Witness for C4: `d4`'s udn equals `swA`'s while its serial, MAC and IP
all differ, and against the store `[swB, swA]` reconciliation matches
`swA` by UDN. -/
theorem c4_udn_match_wins_witness :
    truthy d4.udn = true ∧
      device_exists [swB, swA] d4 = some (MatchType.byUdn, swA) ∧
      swA.serial_number ≠ d4.serial_number ∧
      swA.mac_address ≠ d4.mac ∧
      swA.ip_address ≠ d4.host := by
  obtain ⟨sw, heq, hmem, hu⟩ :=
    c4_udn_match_wins [swB, swA] d4 rfl ⟨swA, by simp, rfl⟩
  simp only [List.mem_cons, List.not_mem_nil, or_false] at hmem
  rcases hmem with rfl | rfl
  · exact absurd hu (by decide)
  · exact ⟨rfl, heq, by decide, by decide, by decide⟩

/-- C5 counterexample: against the store `[swA]`, the descriptor `d5` has
a non-empty udn matching no record while its non-empty serial number
equals `swA`'s, yet the view-side reconciliation
`device_exists_and_update` classifies it as a new device instead of
matching by serial — its `if/elif` chain never reaches the serial
probe. -/
theorem c5_views_udn_shortcircuit_counterexample :
    device_exists_and_update [swA] d5 lookupNone = ViewOutcome.isNew ∧
      truthy d5.udn = true ∧
      swA.udn ≠ d5.udn ∧
      truthy d5.serial_number = true ∧
      swA.serial_number = d5.serial_number := by
  refine ⟨by decide, by decide, by decide, by decide, by decide⟩

/-- C5 amended: in the management command's `device_exists` the cascade
does fall through — a non-empty udn matching no record falls to the
serial probe, which matches by serial number; but in the web endpoint's
`device_exists_and_update` a non-empty udn whose lookup misses
short-circuits the chain, classifying the descriptor as new no matter
what its other identifiers match. -/
theorem c5_cascade_fallthrough_amended (db : Store) (d : Descriptor)
    (db₂ : Store) (d₂ : Descriptor) (lookup : String → Option String)
    (h1 : truthy d.udn = true) (h2 : ∀ sw ∈ db, sw.udn ≠ d.udn)
    (h3 : truthy d.serial_number = true)
    (h4 : ∃ sw ∈ db, sw.serial_number = d.serial_number)
    (h5 : truthy d₂.udn = true) (h6 : ∀ sw ∈ db₂, sw.udn ≠ d₂.udn) :
    (∃ sw, device_exists db d = some (MatchType.bySerial, sw) ∧ sw ∈ db ∧
      sw.serial_number = d.serial_number) ∧
      device_exists_and_update db₂ d₂ lookup = ViewOutcome.isNew := by
  constructor
  · have hnoudn : db.find? (fun sw => sw.udn == d.udn) = none := by
      rw [List.find?_eq_none]
      intro sw hsw
      simp [h2 sw hsw]
    have hsome : (db.find? (fun sw => sw.serial_number == d.serial_number)).isSome := by
      rw [List.find?_isSome]
      obtain ⟨sw, hmem, hs⟩ := h4
      exact ⟨sw, hmem, by simp [hs]⟩
    obtain ⟨sw, hfind⟩ := Option.isSome_iff_exists.1 hsome
    have hp := List.find?_some hfind
    refine ⟨sw, ?_, List.mem_of_find?_eq_some hfind, by simpa using hp⟩
    simp [device_exists, h1, h3, hnoudn, hfind]
  · have hnoudn : db₂.find? (fun sw => sw.udn == d₂.udn) = none := by
      rw [List.find?_eq_none]
      intro sw hsw
      simp [h6 sw hsw]
    simp [device_exists_and_update, h5, hnoudn]

/-- Witness for the amended C5 at the concrete store `[swA]` and
descriptor `d5`: the command matches `swA` by serial number where the
view endpoint reports a new device. -/
theorem c5_cascade_fallthrough_amended_witness :
    device_exists [swA] d5 = some (MatchType.bySerial, swA) ∧
      device_exists_and_update [swA] d5 lookupNone = ViewOutcome.isNew := by
  obtain ⟨⟨sw, heq, hmem, hs⟩, hview⟩ :=
    c5_cascade_fallthrough_amended [swA] d5 [swA] d5 lookupNone rfl
      (by decide) rfl ⟨swA, by simp, rfl⟩ rfl (by decide)
  simp only [List.mem_cons, List.not_mem_nil, or_false] at hmem
  subst hmem
  exact ⟨heq, hview⟩

/-! ## Claim theorems: save invariant (C10) -/

/-- C10: the identifier invariant is enforced on every persistence write:
saving any record whose udn and serial number are both falsy raises the
validation error (before anything is written, so the store is unchanged),
and every store reachable by a successful save from a store satisfying
the invariant still satisfies it. -/
theorem c10_save_enforces_identifier_invariant (db : Store) (sw : WemoSwitch)
    (hinv : ∀ r ∈ db, hasIdentifier r) :
    (¬ hasIdentifier sw →
      WemoSwitch.save db sw = .error "Either UDN or Serial Number must be provided") ∧
      (∀ db2, WemoSwitch.save db sw = .ok db2 → ∀ r ∈ db2, hasIdentifier r) := by
  constructor
  · intro hbad
    have h1 : truthy sw.udn = false := by
      cases h : truthy sw.udn
      · rfl
      · exact absurd (Or.inl h) hbad
    have h2 : truthy sw.serial_number = false := by
      cases h : truthy sw.serial_number
      · rfl
      · exact absurd (Or.inr h) hbad
    simp [WemoSwitch.save, h1, h2]
  · intro db2 hok r hr
    by_cases hgood : hasIdentifier sw
    · have hguard : (!truthy sw.udn && !truthy sw.serial_number) = false := by
        rcases hgood with h | h <;> simp [h]
      rw [WemoSwitch.save, hguard] at hok
      simp only [Bool.false_eq_true, if_false] at hok
      split_ifs at hok with hpk
      · simp only [Except.ok.injEq] at hok
        subst hok
        simp only [List.mem_map] at hr
        obtain ⟨x, hx, rfl⟩ := hr
        by_cases hxeq : (x.pk == sw.pk) = true
        · simpa [hxeq] using hgood
        · simpa [hxeq] using hinv x hx
      · simp only [Except.ok.injEq] at hok
        subst hok
        rcases List.mem_append.1 hr with hmem | hmem
        · exact hinv r hmem
        · simp only [List.mem_singleton] at hmem
          subst hmem
          exact hgood
    · have h1 : truthy sw.udn = false := by
        cases h : truthy sw.udn
        · rfl
        · exact absurd (Or.inl h) hgood
      have h2 : truthy sw.serial_number = false := by
        cases h : truthy sw.serial_number
        · rfl
        · exact absurd (Or.inr h) hgood
      simp [WemoSwitch.save, h1, h2] at hok

/-- Witness for C10: saving the identifier-less `swNoIds` into the store
`[swA]` raises the validation error. -/
theorem c10_save_enforces_identifier_invariant_witness :
    WemoSwitch.save [swA] swNoIds =
      .error "Either UDN or Serial Number must be provided" :=
  (c10_save_enforces_identifier_invariant [swA] swNoIds (by decide)).1 (by decide)

/-! ## Claim theorems: scheduler (C1, C2, C3) -/

/-- C1: on a day whose date already equals `last_sunset_on`, an invocation
issues no turn-on device call and leaves that marker at today — whatever
the current time, window position or random draw — and likewise an
invocation with `last_night_off` equal to today issues no turn-off call
and keeps that marker; so each marker bounds its action to at most one
fire per calendar day. -/
theorem c1_same_day_marker_suppresses_action
    (s₁ s₂ : AwayModeSettings) (today₁ today₂ : Int)
    (ds₁ st₁ now₁ ron₁ roff₁ ds₂ st₂ now₂ ron₂ roff₂ : ℚ)
    (sw₁ sw₂ : Store) (reach₁ reach₂ : WemoSwitch → Bool) (dry₁ dry₂ : Bool)
    (h₁ : s₁.last_sunset_on = some today₁)
    (h₂ : s₂.last_night_off = some today₂) :
    (∀ c ∈ (run_away_mode s₁ today₁ ds₁ st₁ now₁ ron₁ roff₁ sw₁ reach₁ dry₁).calls,
        c.action ≠ SwitchAction.turnOn) ∧
      (run_away_mode s₁ today₁ ds₁ st₁ now₁ ron₁ roff₁
          sw₁ reach₁ dry₁).settings.last_sunset_on = some today₁ ∧
      (∀ c ∈ (run_away_mode s₂ today₂ ds₂ st₂ now₂ ron₂ roff₂ sw₂ reach₂ dry₂).calls,
        c.action ≠ SwitchAction.turnOff) ∧
      (run_away_mode s₂ today₂ ds₂ st₂ now₂ ron₂ roff₂
          sw₂ reach₂ dry₂).settings.last_night_off = some today₂ := by
  obtain ⟨a1, a2⟩ :=
    run_no_turn_on_when_marked s₁ today₁ ds₁ st₁ now₁ ron₁ roff₁ sw₁ reach₁ dry₁ h₁
  obtain ⟨b1, b2⟩ :=
    run_no_turn_off_when_marked s₂ today₂ ds₂ st₂ now₂ ron₂ roff₂ sw₂ reach₂ dry₂ h₂
  exact ⟨a1, a2, b1, b2⟩

/-- Witness for C1 at concrete invocations whose current times sit inside
the respective windows (66000 s is 18:20, inside the sunset window of
`s1c`; 81000 s is 22:30, inside the night window of `s2c`): no call of
the marked kind is issued and the markers stay at day 0. -/
theorem c1_same_day_marker_suppresses_action_witness :
    (⟨SwitchAction.turnOn, swA, true⟩ : DeviceCall) ∉
        (run_away_mode s1c 0 0 64800 66000 0 0 demoSwitches reachExceptB false).calls ∧
      (run_away_mode s1c 0 0 64800 66000 0 0 demoSwitches reachExceptB
          false).settings.last_sunset_on = some 0 ∧
      (⟨SwitchAction.turnOff, swA, true⟩ : DeviceCall) ∉
        (run_away_mode s2c 0 0 64800 81000 0 0 demoSwitches reachExceptB false).calls ∧
      (run_away_mode s2c 0 0 64800 81000 0 0 demoSwitches reachExceptB
          false).settings.last_night_off = some 0 := by
  obtain ⟨a1, a2, b1, b2⟩ :=
    c1_same_day_marker_suppresses_action s1c s2c 0 0 0 64800 66000 0 0 0 64800 81000 0 0
      demoSwitches demoSwitches reachExceptB reachExceptB false false rfl rfl
  exact ⟨fun hc => a1 _ hc rfl, a2, fun hc => b1 _ hc rfl, b2⟩

/-- C2 counterexample: with a 30-minute half-window and sunset at 18:00
(64800 s), the window is [17:30, 18:30] = [63000 s, 66600 s]; at 18:35
(66900 s = 64800 + 35*60) the invocation is past the window, so
`check_sunset_on` takes the missed-window branch — no device call, marker
untouched — even at the most favourable random draw 0, contradicting the
claim that the invocation fires deterministically. -/
theorem c2_no_fire_at_1835_counterexample :
    s0.sunset_window_minutes = 30 ∧
      (66900 : ℚ) = 64800 + 35 * 60 ∧
      check_sunset_on s0 64800 66900 0 0 [swA] (fun _ => true) false = ⟨[], s0⟩ := by
  refine ⟨rfl, by norm_num, ?_⟩
  have hout : ¬ (sunset_window_start s0 64800 ≤ (66900 : ℚ) ∧
      (66900 : ℚ) ≤ sunset_window_end s0 64800) := by
    norm_num [sunset_window_start, sunset_window_end, s0]
  simp only [check_sunset_on]
  rw [if_neg hout]

/-- C2 amended: with `sunset_window_minutes = 30` and sunset at 18:00, a
time of 18:35 lies beyond the window [17:30, 18:30] and nothing fires;
the forced-floor determinism holds at times inside the window with more
than 80% elapsed — here 18:25 (66300 s, 55 of 60 minutes elapsed), where
the turn-on action fires for every random draw, contacting every enabled
switch and setting the marker. -/
theorem c2_forced_floor_fires_inside_window_amended (rand : ℚ) (today : Int)
    (switches : Store) (reach : WemoSwitch → Bool) :
    check_sunset_on s0 64800 66300 today rand switches reach false =
      ⟨turn_on_all_switches switches reach, { s0 with last_sunset_on := some today }⟩ := by
  have hin : sunset_window_start s0 64800 ≤ (66300 : ℚ) ∧
      (66300 : ℚ) ≤ sunset_window_end s0 64800 := by
    norm_num [sunset_window_start, sunset_window_end, s0]
  have hfloor : (66300 : ℚ) - sunset_window_start s0 64800 >
      (sunset_window_end s0 64800 - sunset_window_start s0 64800) * (8 / 10) := by
    norm_num [sunset_window_start, sunset_window_end, s0]
  simp only [check_sunset_on]
  rw [if_pos hin, if_pos (Or.inr hfloor)]
  simp

/-- C3: once the fire condition of a decision holds (current time inside
the window and a winning draw or the forced floor), the fan-out contacts
every enabled switch — the calls list is exactly the map over the
`disabled=false` switches, each paired with its own outcome under an
arbitrary reachability `reach`, so one device's failure blocks neither
the other devices nor the marker — and the idempotence marker is set to
today; both for the sunset-on and the night-off decision. -/
theorem c3_fire_contacts_every_enabled_device
    (s : AwayModeSettings) (sunset_time now : ℚ) (today : Int) (rand : ℚ)
    (switches : Store) (reach : WemoSwitch → Bool)
    (s' : AwayModeSettings) (now' : ℚ) (today' : Int) (day_start' rand' : ℚ)
    (switches' : Store) (reach' : WemoSwitch → Bool)
    (hin : sunset_window_start s sunset_time ≤ now ∧
      now ≤ sunset_window_end s sunset_time)
    (hfire : rand < (now - sunset_window_start s sunset_time) /
        (sunset_window_end s sunset_time - sunset_window_start s sunset_time) ∨
      now - sunset_window_start s sunset_time >
        (sunset_window_end s sunset_time - sunset_window_start s sunset_time) * (8 / 10))
    (hin' : night_window_start s' day_start' ≤ now' ∧
      now' ≤ night_window_end s' day_start')
    (hfire' : rand' < (now' - night_window_start s' day_start') /
        (night_window_end s' day_start' - night_window_start s' day_start') ∨
      now' - night_window_start s' day_start' >
        (night_window_end s' day_start' - night_window_start s' day_start') * (8 / 10)) :
    (check_sunset_on s sunset_time now today rand switches reach false).calls
        = (switches.filter (fun sw => !sw.disabled)).map
            (fun sw => ⟨SwitchAction.turnOn, sw, reach sw⟩) ∧
      (check_sunset_on s sunset_time now today rand switches
          reach false).settings.last_sunset_on = some today ∧
      (check_night_off s' now' today' day_start' rand' switches' reach' false).calls
        = (switches'.filter (fun sw => !sw.disabled)).map
            (fun sw => ⟨SwitchAction.turnOff, sw, reach' sw⟩) ∧
      (check_night_off s' now' today' day_start' rand' switches'
          reach' false).settings.last_night_off = some today' := by
  have e1 : check_sunset_on s sunset_time now today rand switches reach false =
      ⟨turn_on_all_switches switches reach, { s with last_sunset_on := some today }⟩ := by
    simp only [check_sunset_on]
    rw [if_pos hin, if_pos hfire]
    simp
  have e2 : check_night_off s' now' today' day_start' rand' switches' reach' false =
      ⟨turn_off_all_switches switches' reach', { s' with last_night_off := some today' }⟩ := by
    simp only [check_night_off]
    rw [if_pos hin', if_pos hfire']
    simp
  rw [e1, e2]
  exact ⟨by simp [turn_on_all_switches], rfl, by simp [turn_off_all_switches], rfl⟩

/-- Witness for C3 with three enabled devices of which `swB` is
unreachable: at 18:25 the sunset fan-out still contacts all three in
store order and sets the marker; at 22:40 (81600 s) the night fan-out
does likewise. -/
theorem c3_fire_contacts_every_enabled_device_witness :
    (check_sunset_on s0 64800 66300 0 (1 / 2) demoSwitches reachExceptB false).calls =
      [⟨SwitchAction.turnOn, swA, true⟩, ⟨SwitchAction.turnOn, swB, false⟩,
        ⟨SwitchAction.turnOn, swC, true⟩] ∧
    (check_sunset_on s0 64800 66300 0 (1 / 2) demoSwitches reachExceptB
        false).settings.last_sunset_on = some 0 ∧
    (check_night_off s0 81600 0 0 (1 / 2) demoSwitches reachExceptB false).calls =
      [⟨SwitchAction.turnOff, swA, true⟩, ⟨SwitchAction.turnOff, swB, false⟩,
        ⟨SwitchAction.turnOff, swC, true⟩] ∧
    (check_night_off s0 81600 0 0 (1 / 2) demoSwitches reachExceptB
        false).settings.last_night_off = some 0 := by
  obtain ⟨e1, e2, e3, e4⟩ :=
    c3_fire_contacts_every_enabled_device s0 64800 66300 0 (1 / 2) demoSwitches
      reachExceptB s0 81600 0 0 (1 / 2) demoSwitches reachExceptB
      (by norm_num [sunset_window_start, sunset_window_end, s0])
      (Or.inr (by norm_num [sunset_window_start, sunset_window_end, s0]))
      (by norm_num [night_window_start, night_window_end, off_target, s0])
      (Or.inr (by norm_num [night_window_start, night_window_end, off_target, s0]))
  exact ⟨e1.trans (by decide), e2, e3.trans (by decide), e4⟩

/-! ## Claim theorems: discovery batch and update semantics (C6, C9) -/

/-- C6 counterexample: `dNoIds` matches nothing, carries host and name but
neither udn nor serial, and is followed by the valid `dGood`; the run is
not a per-descriptor skip — the batch save aborts with the command error
and the rolled-back store persists neither device, in particular not the
valid `dGood`. -/
theorem c6_identifierless_descriptor_aborts_batch_counterexample :
    truthy dNoIds.host = true ∧ truthy dNoIds.name = true ∧
      truthy dNoIds.udn = false ∧ truthy dNoIds.serial_number = false ∧
      discover_handle [] [dNoIds, dGood] lookupNone false =
        ([], some "Failed to save devices: Either UDN or Serial Number must be provided") := by
  refine ⟨by decide, by decide, by decide, by decide, by decide⟩

/-- C6 amended: a descriptor matching no record is skipped per-descriptor
only when its host or name is falsy (`create_wemo_switch` returns none
and the batch continues); a descriptor with host and name but neither udn
nor serial is instead queued for creation, its save raises the validation
error, and `handle` converts it into a command error that aborts the
atomic batch save, rolling back every new device of the batch — only the
in-loop updates survive. -/
theorem c6_creation_skip_and_batch_abort_amended
    (d₁ : Descriptor) (lookup₁ : String → Option String)
    (db : Store) (d : Descriptor) (lookup : String → Option String)
    (ha : truthy d₁.host = false ∨ truthy d₁.name = false)
    (h1 : truthy d.host = true) (h2 : truthy d.name = true)
    (h3 : truthy d.udn = false) (h4 : truthy d.serial_number = false)
    (h5 : device_exists db d = none) :
    create_wemo_switch d₁ lookup₁ = none ∧
      discover_handle db [d] lookup false =
        (db, some "Failed to save devices: Either UDN or Serial Number must be provided") := by
  constructor
  · rcases ha with h | h <;> simp [create_wemo_switch, h]
  · simp [discover_handle, discoverStep, h5, create_wemo_switch, h1, h2, saveAll,
      WemoSwitch.save, h3, h4]

/-- Witness for the amended C6: the hostless `dHostless` is skipped by the
creation path, while a one-element batch of `dNoIds` against the empty
store aborts with the command error and persists nothing. -/
theorem c6_creation_skip_and_batch_abort_amended_witness :
    create_wemo_switch dHostless lookupNone = none ∧
      discover_handle [] [dNoIds] lookupNone false =
        ([], some "Failed to save devices: Either UDN or Serial Number must be provided") :=
  c6_creation_skip_and_batch_abort_amended dHostless lookupNone [] dNoIds lookupNone
    (Or.inl (by decide)) (by decide) (by decide) (by decide) (by decide) (by decide)

/-- C9 counterexample: `swA` stores port 49153; the rediscovered `d9` is
identical in every compared field except that its port attribute is
absent, yet `update_existing_device` records a port change, overwrites
the stored port with the absent value and (the change list being
nonempty) saves the record — contradicting the claim that an
optional-by-nature stored field is never overwritten by an absent
discovered value and that an identical descriptor is left unsaved. -/
theorem c9_port_overwritten_by_absent_counterexample :
    swA.port = some 49153 ∧ d9.port = none ∧
      update_existing_device swA d9 lookupNone =
        ({ swA with port := none }, [FieldTag.port]) := by
  refine ⟨by decide, by decide, by decide⟩

/-- An ip step that reports no change is the identity. -/
theorem upd_ip_nil {d : Descriptor} {p : WemoSwitch × List FieldTag}
    (h : (upd_ip d p).2 = []) : upd_ip d p = p := by
  unfold upd_ip at h ⊢
  split_ifs at h ⊢ with hc
  · simp at h
  · rfl

/-- A port step that reports no change is the identity. -/
theorem upd_port_nil {d : Descriptor} {p : WemoSwitch × List FieldTag}
    (h : (upd_port d p).2 = []) : upd_port d p = p := by
  unfold upd_port at h ⊢
  split_ifs at h ⊢ with hc
  · simp at h
  · rfl

/-- A hostname step that reports no change is the identity. -/
theorem upd_hostname_nil {hostname : Option String} {p : WemoSwitch × List FieldTag}
    (h : (upd_hostname hostname p).2 = []) : upd_hostname hostname p = p := by
  unfold upd_hostname at h ⊢
  split_ifs at h ⊢ with hc
  · simp at h
  · rfl

/-- A mac step that reports no change is the identity. -/
theorem upd_mac_nil {d : Descriptor} {p : WemoSwitch × List FieldTag}
    (h : (upd_mac d p).2 = []) : upd_mac d p = p := by
  unfold upd_mac at h ⊢
  split_ifs at h ⊢ with hc
  · simp at h
  · rfl

/-- A firmware step that reports no change is the identity. -/
theorem upd_firmware_nil {d : Descriptor} {p : WemoSwitch × List FieldTag}
    (h : (upd_firmware d p).2 = []) : upd_firmware d p = p := by
  unfold upd_firmware at h ⊢
  split_ifs at h ⊢ with hc
  · simp at h
  · rfl

/-- A name step that reports no change is the identity. -/
theorem upd_name_nil {d : Descriptor} {p : WemoSwitch × List FieldTag}
    (h : (upd_name d p).2 = []) : upd_name d p = p := by
  unfold upd_name at h ⊢
  split_ifs at h ⊢ with hc
  · simp at h
  · rfl

/-- The ip step leaves mac, firmware and name untouched. -/
theorem upd_ip_fields (d : Descriptor) (p : WemoSwitch × List FieldTag) :
    (upd_ip d p).1.mac_address = p.1.mac_address ∧
      (upd_ip d p).1.firmware_version = p.1.firmware_version ∧
      (upd_ip d p).1.name = p.1.name := by
  unfold upd_ip
  split_ifs <;> simp

/-- The port step leaves mac, firmware and name untouched. -/
theorem upd_port_fields (d : Descriptor) (p : WemoSwitch × List FieldTag) :
    (upd_port d p).1.mac_address = p.1.mac_address ∧
      (upd_port d p).1.firmware_version = p.1.firmware_version ∧
      (upd_port d p).1.name = p.1.name := by
  unfold upd_port
  split_ifs <;> simp

/-- The hostname step leaves mac, firmware and name untouched. -/
theorem upd_hostname_fields (hostname : Option String) (p : WemoSwitch × List FieldTag) :
    (upd_hostname hostname p).1.mac_address = p.1.mac_address ∧
      (upd_hostname hostname p).1.firmware_version = p.1.firmware_version ∧
      (upd_hostname hostname p).1.name = p.1.name := by
  unfold upd_hostname
  split_ifs <;> simp

/-- The mac step leaves firmware and name untouched. -/
theorem upd_mac_fields (d : Descriptor) (p : WemoSwitch × List FieldTag) :
    (upd_mac d p).1.firmware_version = p.1.firmware_version ∧
      (upd_mac d p).1.name = p.1.name := by
  unfold upd_mac
  split_ifs <;> simp

/-- The firmware step leaves mac and name untouched. -/
theorem upd_firmware_fields (d : Descriptor) (p : WemoSwitch × List FieldTag) :
    (upd_firmware d p).1.mac_address = p.1.mac_address ∧
      (upd_firmware d p).1.name = p.1.name := by
  unfold upd_firmware
  split_ifs <;> simp

/-- The name step leaves mac and firmware untouched. -/
theorem upd_name_fields (d : Descriptor) (p : WemoSwitch × List FieldTag) :
    (upd_name d p).1.mac_address = p.1.mac_address ∧
      (upd_name d p).1.firmware_version = p.1.firmware_version := by
  unfold upd_name
  split_ifs <;> simp

/-- A falsy discovered mac disables the mac step entirely. -/
theorem upd_mac_id (d : Descriptor) (p : WemoSwitch × List FieldTag)
    (h : truthy d.mac = false) : upd_mac d p = p := by
  unfold upd_mac
  rw [if_neg]
  simp [h]

/-- A falsy discovered firmware disables the firmware step entirely. -/
theorem upd_firmware_id (d : Descriptor) (p : WemoSwitch × List FieldTag)
    (h : truthy d.firmware_version = false) : upd_firmware d p = p := by
  unfold upd_firmware
  rw [if_neg]
  simp [h]

/-- A falsy discovered name disables the name step entirely. -/
theorem upd_name_id (d : Descriptor) (p : WemoSwitch × List FieldTag)
    (h : truthy d.name = false) : upd_name d p = p := by
  unfold upd_name
  rw [if_neg]
  simp [h]

/-- An agreeing ip lets the ip step pass unchanged. -/
theorem upd_ip_skip {d : Descriptor} {p : WemoSwitch × List FieldTag}
    (h : p.1.ip_address = d.host) : upd_ip d p = p := by
  unfold upd_ip
  rw [if_neg]
  simp [h]

/-- An agreeing port lets the port step pass unchanged. -/
theorem upd_port_skip {d : Descriptor} {p : WemoSwitch × List FieldTag}
    (h : p.1.port = d.port) : upd_port d p = p := by
  unfold upd_port
  rw [if_neg]
  simp [h]

/-- An agreeing hostname lets the hostname step pass unchanged. -/
theorem upd_hostname_skip {hostname : Option String} {p : WemoSwitch × List FieldTag}
    (h : p.1.hostname = hostname) : upd_hostname hostname p = p := by
  unfold upd_hostname
  rw [if_neg]
  simp [h]

/-- A falsy or agreeing mac lets the mac step pass unchanged. -/
theorem upd_mac_skip {d : Descriptor} {p : WemoSwitch × List FieldTag}
    (h : truthy d.mac = false ∨ p.1.mac_address = d.mac) : upd_mac d p = p := by
  unfold upd_mac
  rw [if_neg]
  rintro ⟨h1, h2⟩
  rcases h with h3 | h3
  · rw [h1] at h3
    exact Bool.noConfusion h3
  · exact h2 h3

/-- A falsy or agreeing firmware lets the firmware step pass unchanged. -/
theorem upd_firmware_skip {d : Descriptor} {p : WemoSwitch × List FieldTag}
    (h : truthy d.firmware_version = false ∨ p.1.firmware_version = d.firmware_version) :
    upd_firmware d p = p := by
  unfold upd_firmware
  rw [if_neg]
  rintro ⟨h1, h2⟩
  rcases h with h3 | h3
  · rw [h1] at h3
    exact Bool.noConfusion h3
  · exact h2 h3

/-- A falsy or agreeing name lets the name step pass unchanged. -/
theorem upd_name_skip {d : Descriptor} {p : WemoSwitch × List FieldTag}
    (h : truthy d.name = false ∨ p.1.name = d.name) : upd_name d p = p := by
  unfold upd_name
  rw [if_neg]
  rintro ⟨h1, h2⟩
  rcases h with h3 | h3
  · rw [h1] at h3
    exact Bool.noConfusion h3
  · exact h2 h3

/-- C9 amended: the truthiness guard protects only `mac_address`,
`firmware_version` and `name` — those stored fields survive an absent
discovered value — while `ip_address`, `port` and `hostname` are applied
on any difference, absent values included; an empty change list means the
record came back untouched, and conversely, when no compared field
differs (each unguarded field agrees with the discovered value and each
guarded field is absent or agrees), the change list is empty and the
record is returned unchanged — so the save path, invoked only on a
nonempty change list, is not invoked. -/
theorem c9_guarded_update_amended (ex : WemoSwitch) (d : Descriptor)
    (lookup : String → Option String) (ex' : WemoSwitch) (changes : List FieldTag)
    (h : update_existing_device ex d lookup = (ex', changes)) :
    (changes = [] → ex' = ex) ∧
      (truthy d.mac = false → ex'.mac_address = ex.mac_address) ∧
      (truthy d.firmware_version = false → ex'.firmware_version = ex.firmware_version) ∧
      (truthy d.name = false → ex'.name = ex.name) ∧
      (ex.ip_address = d.host ∧ ex.port = d.port ∧
          ex.hostname = hostnameFor d lookup ∧
          (truthy d.mac = false ∨ ex.mac_address = d.mac) ∧
          (truthy d.firmware_version = false ∨ ex.firmware_version = d.firmware_version) ∧
          (truthy d.name = false ∨ ex.name = d.name) →
        ex' = ex ∧ changes = []) := by
  have hnodiff : ex.ip_address = d.host ∧ ex.port = d.port ∧
      ex.hostname = hostnameFor d lookup ∧
      (truthy d.mac = false ∨ ex.mac_address = d.mac) ∧
      (truthy d.firmware_version = false ∨ ex.firmware_version = d.firmware_version) ∧
      (truthy d.name = false ∨ ex.name = d.name) →
      ex' = ex ∧ changes = [] := by
    rintro ⟨hip, hport, hhost, hmac, hfw, hname⟩
    have heval : update_existing_device ex d lookup = (ex, []) := by
      unfold update_existing_device
      rw [upd_ip_skip hip, upd_port_skip hport, upd_hostname_skip hhost,
        upd_mac_skip hmac, upd_firmware_skip hfw, upd_name_skip hname]
    have hpair : ((ex', changes) : WemoSwitch × List FieldTag) = (ex, []) :=
      h.symm.trans heval
    exact ⟨((Prod.mk.injEq ex' changes ex []).mp hpair).1,
      ((Prod.mk.injEq ex' changes ex []).mp hpair).2⟩
  unfold update_existing_device at h
  set q1 := upd_ip d (ex, ([] : List FieldTag)) with hq1
  set q2 := upd_port d q1 with hq2
  set q3 := upd_hostname (hostnameFor d lookup) q2 with hq3
  set q4 := upd_mac d q3 with hq4
  set q5 := upd_firmware d q4 with hq5
  refine ⟨?_, ?_, ?_, ?_, hnodiff⟩
  · intro hx
    subst hx
    have e5 : upd_name d q5 = q5 := upd_name_nil (by rw [h])
    have q5e : q5 = (ex', []) := e5.symm.trans h
    have e4 : upd_firmware d q4 = q4 := upd_firmware_nil (by rw [← hq5, q5e])
    have q4e : q4 = (ex', []) := (e4.symm.trans hq5.symm).trans q5e
    have e3 : upd_mac d q3 = q3 := upd_mac_nil (by rw [← hq4, q4e])
    have q3e : q3 = (ex', []) := (e3.symm.trans hq4.symm).trans q4e
    have e2 : upd_hostname (hostnameFor d lookup) q2 = q2 :=
      upd_hostname_nil (by rw [← hq3, q3e])
    have q2e : q2 = (ex', []) := (e2.symm.trans hq3.symm).trans q3e
    have e1 : upd_port d q1 = q1 := upd_port_nil (by rw [← hq2, q2e])
    have q1e : q1 = (ex', []) := (e1.symm.trans hq2.symm).trans q2e
    have e0 : upd_ip d (ex, ([] : List FieldTag)) = (ex, []) :=
      upd_ip_nil (by rw [← hq1, q1e])
    have q0e : ((ex, ([] : List FieldTag)) : WemoSwitch × List FieldTag) = (ex', []) :=
      (e0.symm.trans hq1.symm).trans q1e
    exact ((Prod.mk.injEq ex ([] : List FieldTag) ex' []).mp q0e).1.symm
  · intro hx
    calc ex'.mac_address
        = (upd_name d q5).1.mac_address := by rw [h]
      _ = q5.1.mac_address := (upd_name_fields d q5).1
      _ = q4.1.mac_address := by rw [hq5]; exact (upd_firmware_fields d q4).1
      _ = q3.1.mac_address := by rw [hq4, upd_mac_id d q3 hx]
      _ = q2.1.mac_address := by rw [hq3]; exact (upd_hostname_fields _ q2).1
      _ = q1.1.mac_address := by rw [hq2]; exact (upd_port_fields d q1).1
      _ = ex.mac_address := by rw [hq1]; exact (upd_ip_fields d (ex, [])).1
  · intro hx
    calc ex'.firmware_version
        = (upd_name d q5).1.firmware_version := by rw [h]
      _ = q5.1.firmware_version := (upd_name_fields d q5).2
      _ = q4.1.firmware_version := by rw [hq5, upd_firmware_id d q4 hx]
      _ = q3.1.firmware_version := by rw [hq4]; exact (upd_mac_fields d q3).1
      _ = q2.1.firmware_version := by rw [hq3]; exact (upd_hostname_fields _ q2).2.1
      _ = q1.1.firmware_version := by rw [hq2]; exact (upd_port_fields d q1).2.1
      _ = ex.firmware_version := by rw [hq1]; exact (upd_ip_fields d (ex, [])).2.1
  · intro hx
    calc ex'.name
        = (upd_name d q5).1.name := by rw [h]
      _ = q5.1.name := by rw [upd_name_id d q5 hx]
      _ = q4.1.name := by rw [hq5]; exact (upd_firmware_fields d q4).2
      _ = q3.1.name := by rw [hq4]; exact (upd_mac_fields d q3).2
      _ = q2.1.name := by rw [hq3]; exact (upd_hostname_fields _ q2).2.2
      _ = q1.1.name := by rw [hq2]; exact (upd_port_fields d q1).2.2
      _ = ex.name := by rw [hq1]; exact (upd_ip_fields d (ex, [])).2.2

/-- Witness for the amended C9: at `swA` rediscovered as `d9`, the mac
and firmware guards hold on the concrete update result; and at `swA`
rediscovered as the field-identical `dSame`, the update reports no change
and returns the record untouched, so the save path is not invoked. -/
theorem c9_guarded_update_amended_witness :
    truthy d9.mac = false ∧
      ({ swA with port := none } : WemoSwitch).mac_address = swA.mac_address ∧
      truthy d9.firmware_version = false ∧
      ({ swA with port := none } : WemoSwitch).firmware_version = swA.firmware_version ∧
      update_existing_device swA dSame lookupNone = (swA, []) := by
  have h := c9_guarded_update_amended swA d9 lookupNone { swA with port := none }
    [FieldTag.port] (by decide)
  have h2 := c9_guarded_update_amended swA dSame lookupNone
    (update_existing_device swA dSame lookupNone).1
    (update_existing_device swA dSame lookupNone).2 rfl
  have hcon := h2.2.2.2.2 (by decide)
  exact ⟨by decide, h.2.1 (by decide), by decide, h.2.2.1 (by decide),
    Prod.ext_iff.mpr ⟨hcon.1, hcon.2⟩⟩

end Casa
